import Mathlib

/-!
Verification of `multi_agent_terminal.py`: a shallow embedding of the
`call_gemini` retry wrapper, the plan-extraction fallback chain, and the
three-stage orchestrator `run_agent_system`, together with theorems about
the claims of the specification.

Remote-service behaviour (what `model.generate_content_async` returns or
raises, and what `json.loads` parses a given string to) is external to the
repository, so it enters the embedding as explicit oracle arguments; the
code of the repository itself — response inspection, exception dispatch,
retry/backoff, fallback parsing, orchestration — is translated directly.
-/

set_option autoImplicit false

namespace MultiAgentTerminal

/-! ### The response structure seen by `call_gemini`

The code reads `response.candidates`, `candidates[0].content.parts`,
`parts[0].text`, `candidates[0].finish_reason` and
`candidates[0].safety_ratings`.  Python truthiness of a list is
non-emptiness; `finish_reason` is modelled as `Option String` holding the
enum's `.name` when the enum value is truthy (`none` models a falsy /
absent finish reason, whose `.name` the code never reads), and
`safety_ratings` is modelled by its rendered string form, which is all the
code uses it for (interpolation into the blocked-content marker). -/

structure Part where
  text : String
deriving DecidableEq, Repr

structure Content where
  parts : List Part
deriving DecidableEq, Repr

structure Candidate where
  content : Content
  finish_reason : Option String
  safety_ratings : String
deriving DecidableEq, Repr

structure GenResponse where
  candidates : List Candidate
deriving DecidableEq, Repr

/-- Truthiness test `finish_reason and finish_reason.name == "SAFETY"`. -/
def finishReasonIsSafety (c : Candidate) : Bool :=
  match c.finish_reason with
  | some n => n = "SAFETY"
  | none => false

/-- Stand-in for the f-string rendering of the whole response object in the
`Invalid response structure` message.  No claim depends on this text (the
branch producing it is proved unreachable), only on the message being
distinct per response shape. -/
def responseRepr (r : GenResponse) : String :=
  "candidates=" ++ toString (repr r.candidates)

/-- The body of the `try:` block of `call_gemini` after
`generate_content_async` has returned `r`: either a normal `return` with a
string (`Except.ok`), or an exception raised while inspecting the response
(`Except.error` carrying `str(e)`).  Mirrors lines 90–105 of
`multi_agent_terminal.py`:
* `response.candidates and response.candidates[0].content.parts` →
  return `parts[0].text`;
* otherwise `response.candidates[0]` is read, which on an empty candidate
  list raises `IndexError("list index out of range")`;
* safety finish reason → return the blocked marker;
* `response.candidates and not response.candidates[0].content.parts` →
  return the empty-content marker;
* otherwise `raise Exception("Invalid response structure from API. ...")`. -/
def processResponse (r : GenResponse) : Except String String :=
  match r.candidates.head? with
  | some c =>
    match c.content.parts.head? with
    | some p => Except.ok p.text
    | none =>
      if finishReasonIsSafety c then
        Except.ok ("[Response blocked by safety filter: " ++ c.safety_ratings ++ "]")
      else if r.candidates ≠ [] ∧ c.content.parts = [] then
        Except.ok "[No content returned from API]"
      else
        Except.error ("Invalid response structure from API. Response: " ++ responseRepr r)
  | none => Except.error "list index out of range"

/-! ### Exceptions and the retry loop -/

/-- The exception classes `call_gemini` distinguishes: the three transient
`google.api_core` kinds named in its first `except` clause, and every
other exception type (`otherKind`), with `msg` modelling `str(e)`. -/
inductive ExcKind
  | resourceExhausted
  | serviceUnavailable
  | internalServerError
  | otherKind
deriving DecidableEq, Repr

structure Exc where
  kind : ExcKind
  msg : String
deriving DecidableEq, Repr

/-- Membership in the tuple of the first `except` clause (line 107). -/
def Exc.isTransient (e : Exc) : Bool :=
  match e.kind with
  | ExcKind.resourceExhausted => true
  | ExcKind.serviceUnavailable => true
  | ExcKind.internalServerError => true
  | ExcKind.otherKind => false

/-- What the remote call does on one attempt: raise, or return a response.
One event is consumed per iteration of the `for attempt in range(retries)`
loop, so a list of events of length `retries` models one call of
`call_gemini` with that retry budget. -/
inductive AttemptEvent
  | raisesEvt (e : Exc)
  | responds (r : GenResponse)
deriving DecidableEq, Repr

/-- Outcome of the `try:` block on one attempt: a normal `return` value, or
the exception reaching the `except` clauses.  Exceptions raised while
inspecting the response (`IndexError`, the generic `Exception`) are not of
the three `google.api_core` transient classes, hence `otherKind`. -/
def attemptTry (ev : AttemptEvent) : Except Exc String :=
  match ev with
  | AttemptEvent.raisesEvt e => Except.error e
  | AttemptEvent.responds r =>
    match processResponse r with
    | Except.ok s => Except.ok s
    | Except.error m => Except.error ⟨ExcKind.otherKind, m⟩

/-- How one call of `call_gemini` ends: a normal `return` with a string, or
an exception propagating to the caller. -/
inductive CallResult
  | returns (s : String)
  | raisesExc (msg : String)
deriving DecidableEq, Repr

/-- One call of `call_gemini` with its observable effects: the result, the
successive arguments of `time.sleep` in order, and the number of attempts
(iterations that entered the `try:` block). -/
structure CallTrace where
  result : CallResult
  sleeps : List Nat
  attemptsUsed : Nat
deriving DecidableEq, Repr

/-- The loop of `call_gemini` (lines 86–120): one `AttemptEvent` per
iteration; `delay` is the current backoff delay.  A transient exception
sleeps `delay`, doubles it and continues the loop; any other exception
returns the in-band `[Error: ...]` string; an exhausted event list falls
through to `raise Exception("API call failed after multiple retries.")`. -/
def callGemini : List AttemptEvent → Nat → CallTrace
  | [], _ => ⟨CallResult.raisesExc "API call failed after multiple retries.", [], 0⟩
  | ev :: rest, delay =>
    match attemptTry ev with
    | Except.ok s => ⟨CallResult.returns s, [], 1⟩
    | Except.error e =>
      if e.isTransient then
        let t := callGemini rest (delay * 2)
        ⟨t.result, delay :: t.sleeps, t.attemptsUsed + 1⟩
      else
        ⟨CallResult.returns ("[Error: " ++ e.msg ++ "]"), [], 1⟩

/-! ### Plan extraction (lines 140–152 of `run_agent_system`)

`json.loads` is a library call; its outcome on the planner text enters as
an `Option PyJson` (with `none` modelling a raised `JSONDecodeError`).
The repository code itself — the `isinstance` checks, the re-raise into
the `except` clause, the newline-split fallback and the final
single-element fallback — is translated directly. -/

/-- A parsed JSON value, as `json.loads` produces it (numbers collapsed to
`Int`; their exact value is irrelevant, only that they are not `str`). -/
inductive PyJson
  | str (s : String)
  | num (n : Int)
  | arr (items : List PyJson)
  | obj (fields : List (String × PyJson))
  | boolean (b : Bool)
  | null

/-- `isinstance(v, list) and all(isinstance(q, str) for q in v)`, returning
the strings when the check passes. -/
def asListOfStrings : PyJson → Option (List String)
  | PyJson.arr items =>
    items.mapM (fun v =>
      match v with
      | PyJson.str s => some s
      | _ => none)
  | _ => none

/-- Python whitespace stripped by `str.strip()` on ASCII text (the Unicode
whitespace Python also strips does not occur in any claim). -/
def isPyWhitespace (c : Char) : Bool :=
  c = ' ' || c = '\t' || c = '\n' || c = '\r' || c = '\x0b' || c = '\x0c'

/-- `str.strip()`: drop leading and trailing whitespace. -/
def pyStrip (s : String) : String :=
  ⟨((s.data.dropWhile isPyWhitespace).reverse.dropWhile isPyWhitespace).reverse⟩

/-- `s.split('\n')` on the character list: split at every newline, keeping
empty segments (so `"a\n" → ["a", ""]` and `"" → [""]`, as in Python). -/
def splitNewlineAux : List Char → List Char → List String
  | [], acc => [⟨acc.reverse⟩]
  | c :: cs, acc =>
    if c = '\n' then ⟨acc.reverse⟩ :: splitNewlineAux cs []
    else splitNewlineAux cs (c :: acc)

def splitNewline (s : String) : List String :=
  splitNewlineAux s.data []

/-- `[q.strip() for q in plan_text.split('\n') if q.strip()]` (line 148). -/
def fallbackSplit (plan_text : String) : List String :=
  ((splitNewline plan_text).map pyStrip).filter (fun q => q ≠ "")

/-- Lines 140–152: try the JSON parse; on `JSONDecodeError` (parse failure,
or the deliberate re-raise when the value is not a list of strings) fall
back to the newline split; if the resulting list is empty, fall back to
`[user_goal]`. -/
def extractPlan (parsed : Option PyJson) (plan_text user_goal : String) : List String :=
  let research_queries :=
    match parsed with
    | some v =>
      match asListOfStrings v with
      | some qs => qs
      | none => fallbackSplit plan_text
    | none => fallbackSplit plan_text
  if research_queries = [] then [user_goal] else research_queries

/-- The reference definition stated by claim C4, written from the spec's
words (not from the code): a JSON array of N strings yields exactly those
N strings; otherwise the newline-split/trim/drop-empty of the raw text.
It has no final single-element fallback. -/
def specPlanReference (parsed : Option PyJson) (raw_text : String) : List String :=
  match parsed with
  | some v =>
    match asListOfStrings v with
    | some qs => qs
    | none => fallbackSplit raw_text
  | none => fallbackSplit raw_text

/-! ### The agent personas (module-level constants, lines 34–45) -/

def MANAGER_PROMPT : String :=
  "You are a meticulous Project Manager. Your job is to break down a complex research goal into a small list of 3-5 specific, sequential research questions.\nYou must respond ONLY with a valid JSON array of strings. Do not include any other text, markdown, or explanations.\nExample: [\"question 1\", \"question 2\", \"question 3\"]"

def RESEARCHER_PROMPT : String :=
  "You are an expert Research Analyst. Your job is to find the most relevant, up-to-date information for a specific query.\nYou MUST use your search tool to find this information.\nRespond with a concise, factual summary of your findings. Cite sources if possible."

def WRITER_PROMPT : String :=
  "You are a professional Report Writer. Your job is to take a collection of research notes (each tied to a specific question) and synthesize them into a single, cohesive, well-structured report.\nDo not just list the findings; weave them into a narrative.\nStart with an introduction, then present the findings in body paragraphs, and conclude with a summary.\nRespond in well-formatted Markdown (use headings, bold text, and lists where appropriate)."

/-! ### `json.dumps(all_research, indent=2)` (line 168)

`all_research` is a list of two-key dicts `{"question": q, "finding": f}`
in insertion order, so the serialization is fixed by the list of pairs.
String escaping follows `json.dumps` defaults (`ensure_ascii=True`):
backslash and quote escaped, named short escapes for the usual controls,
`\uXXXX` (lowercase hex) for other controls and everything outside
`0x20`–`0x7e`, with surrogate pairs beyond the BMP. -/

def hexDigitChar (n : Nat) : Char :=
  if n < 10 then Char.ofNat (48 + n) else Char.ofNat (87 + n)

def u4 (n : Nat) : String :=
  ⟨[hexDigitChar (n / 4096 % 16), hexDigitChar (n / 256 % 16),
    hexDigitChar (n / 16 % 16), hexDigitChar (n % 16)]⟩

def jsonEscapeChar (c : Char) : String :=
  if c = '\\' then "\\\\"
  else if c = '"' then "\\\""
  else if c = '\n' then "\\n"
  else if c = '\t' then "\\t"
  else if c = '\r' then "\\r"
  else if c.toNat = 8 then "\\b"
  else if c.toNat = 12 then "\\f"
  else if c.toNat < 0x20 then "\\u" ++ u4 c.toNat
  else if c.toNat ≤ 0x7e then ⟨[c]⟩
  else if c.toNat ≤ 0xffff then "\\u" ++ u4 c.toNat
  else
    "\\u" ++ u4 (0xd800 + (c.toNat - 0x10000) / 0x400) ++
    "\\u" ++ u4 (0xdc00 + (c.toNat - 0x10000) % 0x400)

def jsonEscape (s : String) : String :=
  String.join (s.data.map jsonEscapeChar)

/-- One `{"question": q, "finding": f}` entry at `indent=2`, as an element
of the enclosing array (hence the two-space leading indent). -/
def noteJson (note : String × String) : String :=
  "  \x7b\n    \"question\": \"" ++ jsonEscape note.1 ++
  "\",\n    \"finding\": \"" ++ jsonEscape note.2 ++ "\"\n  \x7d"

/-- `json.dumps(all_research, indent=2)` on the ordered list of
(question, finding) pairs. -/
def dumpsResearch (notes : List (String × String)) : String :=
  match notes with
  | [] => "[]"
  | _ => "[\n" ++ String.intercalate ",\n" (notes.map noteJson) ++ "\n]"

/-- The writer task (line 168). -/
def writerTaskPrompt (notes : List (String × String)) : String :=
  "Please write a final report based on the following research notes:\n\n" ++
  dumpsResearch notes

/-! ### The orchestrator `run_agent_system` (lines 125–184)

Each `await call_gemini(...)` either returns a string or raises; the
orchestrator-level oracle assigns an outcome to the i-th remote call of
the run (call 0 = planner, calls 1..N = researcher, call N+1 = writer).
The trace records every call actually issued, with its arguments, in
issue order — the program is single-threaded and each `await` completes
before the next call is built, so trace order is execution order. -/

/-- Arguments of one `call_gemini` invocation as the orchestrator makes it. -/
structure CallSpec where
  system_prompt : String
  user_prompt : String
  use_search : Bool
deriving DecidableEq, Repr

/-- Outcome of one `call_gemini` invocation seen by the orchestrator. -/
inductive CallRes
  | ok (text : String)
  | exn (msg : String)
deriving DecidableEq, Repr

/-- How the run ends: the FINAL REPORT block printed with the writer's
text, or the SYSTEM ERROR block of the top-level `except` (lines 179–184). -/
inductive RunOutcome
  | report (text : String)
  | systemError (msg : String)
deriving DecidableEq, Repr

structure RunTrace where
  calls : List (CallSpec × CallRes)
  outcome : RunOutcome
deriving DecidableEq, Repr

/-- Collapse a `call_gemini` trace to what the orchestrator observes. -/
def toCallRes (t : CallTrace) : CallRes :=
  match t.result with
  | CallResult.returns s => CallRes.ok s
  | CallResult.raisesExc m => CallRes.exn m

/-- Orchestrator-level oracle induced by per-call attempt events: remote
call `i` of the run behaves as `call_gemini` on event list `evs i` with
initial backoff `delay`. -/
def oracleOfEvents (evs : Nat → List AttemptEvent) (delay : Nat) : Nat → CallRes :=
  fun i => toCallRes (callGemini (evs i) delay)

/-- The researcher loop (lines 158–163): one call per query, in order,
each completed before the next begins; a raised exception aborts the loop
(and, upstream, the whole `try:` of `run_agent_system`).  Returns the
calls issued and either the ordered (question, finding) notes or the
escaping exception's message. -/
def researchLoop (oracle : Nat → CallRes) :
    List String → Nat → List (CallSpec × CallRes) × Except String (List (String × String))
  | [], _ => ([], Except.ok [])
  | q :: qs, i =>
    match oracle i with
    | CallRes.exn m => ([(⟨RESEARCHER_PROMPT, q, true⟩, CallRes.exn m)], Except.error m)
    | CallRes.ok finding =>
      let t := researchLoop oracle qs (i + 1)
      ((⟨RESEARCHER_PROMPT, q, true⟩, CallRes.ok finding) :: t.1,
       t.2.map (fun notes => (q, finding) :: notes))

/-- `run_agent_system` (lines 125–184): planner call, plan extraction,
researcher loop, writer call; any exception raised by a call reaches the
top-level `except` and becomes the SYSTEM ERROR outcome. -/
def runAgentSystem (oracle : Nat → CallRes) (loadsOracle : String → Option PyJson)
    (user_goal : String) : RunTrace :=
  match oracle 0 with
  | CallRes.exn m => ⟨[(⟨MANAGER_PROMPT, user_goal, false⟩, CallRes.exn m)], RunOutcome.systemError m⟩
  | CallRes.ok plan_text =>
    let research_queries := extractPlan (loadsOracle plan_text) plan_text user_goal
    let t := researchLoop oracle research_queries 1
    match t.2 with
    | Except.error m =>
      ⟨(⟨MANAGER_PROMPT, user_goal, false⟩, CallRes.ok plan_text) :: t.1,
       RunOutcome.systemError m⟩
    | Except.ok all_research =>
      match oracle (research_queries.length + 1) with
      | CallRes.exn m =>
        ⟨(⟨MANAGER_PROMPT, user_goal, false⟩, CallRes.ok plan_text) :: t.1 ++
          [(⟨WRITER_PROMPT, writerTaskPrompt all_research, false⟩, CallRes.exn m)],
         RunOutcome.systemError m⟩
      | CallRes.ok final_report =>
        ⟨(⟨MANAGER_PROMPT, user_goal, false⟩, CallRes.ok plan_text) :: t.1 ++
          [(⟨WRITER_PROMPT, writerTaskPrompt all_research, false⟩, CallRes.ok final_report)],
         RunOutcome.report final_report⟩

/-! ### Helper lemmas about `callGemini` -/

theorem callGemini_ok_first (ev : AttemptEvent) (rest : List AttemptEvent) (delay : Nat)
    (s : String) (h : attemptTry ev = Except.ok s) :
    callGemini (ev :: rest) delay = ⟨CallResult.returns s, [], 1⟩ := by
  simp [callGemini, h]

theorem callGemini_nontransient_first (ev : AttemptEvent) (rest : List AttemptEvent)
    (delay : Nat) (e : Exc) (h : attemptTry ev = Except.error e)
    (ht : e.isTransient = false) :
    callGemini (ev :: rest) delay =
      ⟨CallResult.returns ("[Error: " ++ e.msg ++ "]"), [], 1⟩ := by
  simp [callGemini, h, ht]

theorem callGemini_transient_first (ev : AttemptEvent) (rest : List AttemptEvent)
    (delay : Nat) (e : Exc) (h : attemptTry ev = Except.error e)
    (ht : e.isTransient = true) :
    callGemini (ev :: rest) delay =
      ⟨(callGemini rest (delay * 2)).result,
       delay :: (callGemini rest (delay * 2)).sleeps,
       (callGemini rest (delay * 2)).attemptsUsed + 1⟩ := by
  simp [callGemini, h, ht]

/-- An exception raised while inspecting the response (processing error)
is non-transient, so the catch-all turns it into the in-band payload. -/
theorem callGemini_processError_inband (r : GenResponse) (rest : List AttemptEvent)
    (delay : Nat) (m : String) (h : processResponse r = Except.error m) :
    callGemini (AttemptEvent.responds r :: rest) delay =
      ⟨CallResult.returns ("[Error: " ++ m ++ "]"), [], 1⟩ := by
  have hev : attemptTry (AttemptEvent.responds r) = Except.error ⟨ExcKind.otherKind, m⟩ := by
    simp [attemptTry, h]
  exact callGemini_nontransient_first _ rest delay _ hev rfl

theorem callGemini_attempts_pos (events : List AttemptEvent) (delay : Nat)
    (h : events ≠ []) : 1 ≤ (callGemini events delay).attemptsUsed := by
  match events with
  | [] => exact absurd rfl h
  | ev :: rest =>
    simp only [callGemini]
    cases hev : attemptTry ev with
    | ok s => simp
    | error e =>
      by_cases ht : e.isTransient <;> simp [ht]

/-! ### Claims about `call_gemini` -/

/-- C1: for any attempt of `call_gemini`, an exception of one of the three
transient kinds (rate-limit/resource-exhausted, service-unavailable,
internal-server-error) makes the loop sleep and proceed to the next
attempt with the doubled delay (a retry whenever budget remains — at least
two attempts are used); an exception of any other kind makes the call
return normally, immediately, with the in-band payload
`"[Error: <message>]"`: no retry, no sleep, no re-raise. -/
theorem c1_transient_retried_others_inband (ev : AttemptEvent) (rest : List AttemptEvent)
    (delay : Nat) (e : Exc) (h : attemptTry ev = Except.error e) :
    (e.isTransient = false →
      callGemini (ev :: rest) delay =
        ⟨CallResult.returns ("[Error: " ++ e.msg ++ "]"), [], 1⟩) ∧
    (e.isTransient = true →
      callGemini (ev :: rest) delay =
        ⟨(callGemini rest (delay * 2)).result,
         delay :: (callGemini rest (delay * 2)).sleeps,
         (callGemini rest (delay * 2)).attemptsUsed + 1⟩ ∧
      (rest ≠ [] → 2 ≤ (callGemini (ev :: rest) delay).attemptsUsed)) := by
  refine ⟨fun ht => callGemini_nontransient_first ev rest delay e h ht, fun ht => ?_⟩
  refine ⟨callGemini_transient_first ev rest delay e h ht, fun hne => ?_⟩
  rw [callGemini_transient_first ev rest delay e h ht]
  have := callGemini_attempts_pos rest (delay * 2) hne
  simpa using Nat.succ_le_succ this

/-- Witness for C1: a non-transient exception on the first attempt returns
the in-band error payload without retrying. -/
theorem c1_witness :
    callGemini [AttemptEvent.raisesEvt ⟨ExcKind.otherKind, "boom"⟩] 5 =
      ⟨CallResult.returns "[Error: boom]", [], 1⟩ :=
  (c1_transient_retried_others_inband (AttemptEvent.raisesEvt ⟨ExcKind.otherKind, "boom"⟩)
    [] 5 ⟨ExcKind.otherKind, "boom"⟩ rfl).1 rfl

/-- C2: when every attempt fails with a transient-kind exception, the call
uses exactly the retry budget (the length of the event list, default 3),
sleeps the doubling backoff sequence D, 2D, 4D, ... and then raises the
terminal retries-exhausted failure. -/
theorem c2_retries_exhausted_raises (events : List AttemptEvent) (retries delay : Nat)
    (hlen : events.length = retries)
    (h : ∀ ev ∈ events, ∃ e, attemptTry ev = Except.error e ∧ e.isTransient = true) :
    callGemini events delay =
      ⟨CallResult.raisesExc "API call failed after multiple retries.",
       (List.range retries).map (fun i => delay * 2 ^ i), retries⟩ := by
  subst hlen
  revert h
  induction events generalizing delay with
  | nil => intro _; simp [callGemini]
  | cons ev rest ih =>
    intro h
    obtain ⟨e, he, ht⟩ := h ev (List.mem_cons_self ev rest)
    rw [callGemini_transient_first ev rest delay e he ht,
        ih (delay * 2) (fun x hx => h x (List.mem_cons_of_mem ev hx))]
    have hseq : (List.range (rest.length + 1)).map (fun i => delay * 2 ^ i)
        = delay :: (List.range rest.length).map (fun i => delay * 2 * 2 ^ i) := by
      rw [List.range_succ_eq_map, List.map_cons, List.map_map]
      congr 1
      · simp
      · congr 1
        funext i
        simp only [Function.comp_apply, pow_succ]
        ring
    simp [hseq]

/-- Witness for C2: three transient failures with the default budget
(3 attempts) and default initial delay (5) sleep 5, 10, 20 and raise the
retries-exhausted failure. -/
theorem c2_witness :
    callGemini [AttemptEvent.raisesEvt ⟨ExcKind.resourceExhausted, "quota"⟩,
        AttemptEvent.raisesEvt ⟨ExcKind.serviceUnavailable, "503"⟩,
        AttemptEvent.raisesEvt ⟨ExcKind.internalServerError, "500"⟩] 5 =
      ⟨CallResult.raisesExc "API call failed after multiple retries.", [5, 10, 20], 3⟩ := by
  have h := c2_retries_exhausted_raises
    [AttemptEvent.raisesEvt ⟨ExcKind.resourceExhausted, "quota"⟩,
      AttemptEvent.raisesEvt ⟨ExcKind.serviceUnavailable, "503"⟩,
      AttemptEvent.raisesEvt ⟨ExcKind.internalServerError, "500"⟩] 3 5 rfl ?_
  · rw [h]
    decide
  · intro ev hev
    fin_cases hev
    · exact ⟨⟨ExcKind.resourceExhausted, "quota"⟩, rfl, rfl⟩
    · exact ⟨⟨ExcKind.serviceUnavailable, "503"⟩, rfl, rfl⟩
    · exact ⟨⟨ExcKind.internalServerError, "500"⟩, rfl, rfl⟩

/-- Counterexample to C3: a malformed response — zero candidates, matching
none of the recognized candidate/content-parts patterns — does NOT make
`call_gemini` raise a failure that propagates: reading `candidates[0]`
raises `IndexError`, the catch-all converts it, and the call returns
normally with the in-band `[Error: ...]` payload. -/
theorem c3_counterexample :
    callGemini [AttemptEvent.responds ⟨[]⟩] 5 =
      ⟨CallResult.returns "[Error: list index out of range]", [], 1⟩ ∧
    ¬ ∃ m, (callGemini [AttemptEvent.responds ⟨[]⟩] 5).result = CallResult.raisesExc m := by
  constructor
  · decide
  · rintro ⟨m, hm⟩
    simp [callGemini, attemptTry, processResponse, Exc.isTransient] at hm

/-- C3 amended: when the response has a malformed/unexpected shape, the
exception raised while inspecting it (the generic invalid-structure
failure, or the index error that precedes it) is caught by the catch-all
handler of the same call: `call_gemini` returns normally with the in-band
payload `"[Error: <message>]"`, without retrying, and no exception
propagates to the Orchestrator. -/
theorem c3_amended_malformed_inband (r : GenResponse) (rest : List AttemptEvent)
    (delay : Nat) (m : String) (h : processResponse r = Except.error m) :
    callGemini (AttemptEvent.responds r :: rest) delay =
      ⟨CallResult.returns ("[Error: " ++ m ++ "]"), [], 1⟩ :=
  callGemini_processError_inband r rest delay m h

/-- Witness for the amended C3 at the zero-candidate response. -/
theorem c3_amended_witness :
    callGemini [AttemptEvent.responds ⟨[]⟩] 5 =
      ⟨CallResult.returns "[Error: list index out of range]", [], 1⟩ :=
  c3_amended_malformed_inband ⟨[]⟩ [] 5 "list index out of range" rfl

/-- C6: a safety-blocked response — at least one candidate, no content
parts, finish reason `SAFETY` — makes `call_gemini` return normally (no
exception) with the blocked-content marker string
`"[Response blocked by safety filter: <ratings>]"`. -/
theorem c6_safety_block_returns_marker (r : GenResponse) (c : Candidate)
    (rest : List AttemptEvent) (delay : Nat)
    (hc : r.candidates.head? = some c) (hp : c.content.parts = [])
    (hf : c.finish_reason = some "SAFETY") :
    callGemini (AttemptEvent.responds r :: rest) delay =
      ⟨CallResult.returns ("[Response blocked by safety filter: " ++ c.safety_ratings ++ "]"),
       [], 1⟩ := by
  have hpr : processResponse r =
      Except.ok ("[Response blocked by safety filter: " ++ c.safety_ratings ++ "]") := by
    simp [processResponse, hc, hp, finishReasonIsSafety, hf]
  exact callGemini_ok_first _ rest delay _ (by simp [attemptTry, hpr])

/-- Witness for C6 at a concrete blocked response. -/
theorem c6_witness :
    callGemini [AttemptEvent.responds ⟨[⟨⟨[]⟩, some "SAFETY", "ratings"⟩]⟩] 5 =
      ⟨CallResult.returns "[Response blocked by safety filter: ratings]", [], 1⟩ :=
  c6_safety_block_returns_marker ⟨[⟨⟨[]⟩, some "SAFETY", "ratings"⟩]⟩
    ⟨⟨[]⟩, some "SAFETY", "ratings"⟩ [] 5 rfl rfl rfl

/-- C9: the `raise Exception("Invalid response structure ...")` branch is
unreachable — every response with at least one candidate that enters the
empty/blocked branch (no content parts) is answered first with either the
blocked-content marker or the empty-content marker, and no exception at
all leaves the response inspection. -/
theorem c9_invalid_structure_unreachable (r : GenResponse) (c : Candidate)
    (hc : r.candidates.head? = some c) (hp : c.content.parts = []) :
    (processResponse r =
        Except.ok ("[Response blocked by safety filter: " ++ c.safety_ratings ++ "]") ∨
      processResponse r = Except.ok "[No content returned from API]") ∧
    ∀ m, processResponse r ≠ Except.error m := by
  have hne : r.candidates ≠ [] := by
    intro h0
    rw [h0] at hc
    exact Option.noConfusion hc
  by_cases hs : finishReasonIsSafety c
  · refine ⟨Or.inl ?_, ?_⟩
    · simp [processResponse, hc, hp, hs]
    · intro m
      simp [processResponse, hc, hp, hs]
  · refine ⟨Or.inr ?_, ?_⟩
    · simp [processResponse, hc, hp, hs, hne]
    · intro m
      simp [processResponse, hc, hp, hs, hne]

/-- Witness for C9: a candidate with empty parts and a non-safety finish
reason yields the empty-content marker and no exception. -/
theorem c9_witness :
    (processResponse ⟨[⟨⟨[]⟩, some "STOP", "r"⟩]⟩ =
        Except.ok ("[Response blocked by safety filter: " ++ "r" ++ "]") ∨
      processResponse ⟨[⟨⟨[]⟩, some "STOP", "r"⟩]⟩ =
        Except.ok "[No content returned from API]") ∧
    ∀ m, processResponse ⟨[⟨⟨[]⟩, some "STOP", "r"⟩]⟩ ≠ Except.error m :=
  c9_invalid_structure_unreachable ⟨[⟨⟨[]⟩, some "STOP", "r"⟩]⟩
    ⟨⟨[]⟩, some "STOP", "r"⟩ rfl rfl

/-- C10: a response with an empty candidate list makes `call_gemini`
return normally with the in-band `"[Error: <message>]"` payload (the
`IndexError` from `candidates[0]` caught by the catch-all) — not the
blocked-content marker, not the empty-content marker, and not a
propagated exception — whatever finish reason a safety block might have
carried (with zero candidates, none is ever read). -/
theorem c10_empty_candidates_inband_error (r : GenResponse) (rest : List AttemptEvent)
    (delay : Nat) (h : r.candidates = []) :
    callGemini (AttemptEvent.responds r :: rest) delay =
      ⟨CallResult.returns "[Error: list index out of range]", [], 1⟩ := by
  have hpr : processResponse r = Except.error "list index out of range" := by
    simp [processResponse, h]
  exact callGemini_processError_inband r rest delay _ hpr

/-- Witness for C10 at the concrete zero-candidate response. -/
theorem c10_witness :
    callGemini [AttemptEvent.responds ⟨[]⟩, AttemptEvent.responds ⟨[]⟩] 7 =
      ⟨CallResult.returns "[Error: list index out of range]", [], 1⟩ :=
  c10_empty_candidates_inband_error ⟨[]⟩ [AttemptEvent.responds ⟨[]⟩] 7 rfl

/-! ### Claims about plan extraction -/

/-- Counterexample to C4: on the planner text `"[]"` — a valid JSON array
of N = 0 strings — the reference definition of the claim yields the empty
plan (those 0 strings), while the code's extraction yields the
single-element fallback `[fallback_goal]`; the two differ. -/
theorem c4_counterexample :
    specPlanReference (some (PyJson.arr [])) "[]" = [] ∧
    extractPlan (some (PyJson.arr [])) "[]" "goal" = ["goal"] ∧
    extractPlan (some (PyJson.arr [])) "[]" "goal" ≠
      specPlanReference (some (PyJson.arr [])) "[]" := by
  refine ⟨rfl, rfl, ?_⟩
  decide

/-- C4 amended: plan extraction equals the claim's reference definition
(JSON array of strings ⇒ exactly those strings in order; otherwise the
newline-split/trim/drop-empty fallback in order) whenever that reference
yields a non-empty list; when the reference yields the empty list, the
plan is instead the single-element sequence `[fallback_goal]`. -/
theorem c4_amended_plan_matches_reference (parsed : Option PyJson)
    (raw_text fallback_goal : String) :
    (specPlanReference parsed raw_text ≠ [] →
      extractPlan parsed raw_text fallback_goal = specPlanReference parsed raw_text) ∧
    (specPlanReference parsed raw_text = [] →
      extractPlan parsed raw_text fallback_goal = [fallback_goal]) := by
  have hq : extractPlan parsed raw_text fallback_goal =
      (if specPlanReference parsed raw_text = [] then [fallback_goal]
       else specPlanReference parsed raw_text) := by
    unfold extractPlan specPlanReference
    cases parsed with
    | none => rfl
    | some v => cases hv : asListOfStrings v <;> rfl
  constructor
  · intro hne
    rw [hq, if_neg hne]
  · intro he
    rw [hq, if_pos he]

/-- Witness for the amended C4: the newline fallback on
`"1. foo\n2. bar"` gives `["1. foo", "2. bar"]`, and a JSON array of two
strings gives exactly those strings. -/
theorem c4_amended_witness :
    extractPlan none "1. foo\n2. bar" "goal" = ["1. foo", "2. bar"] ∧
    extractPlan (some (PyJson.arr [PyJson.str "a", PyJson.str "b"])) "x" "goal" = ["a", "b"] := by
  constructor
  · rw [(c4_amended_plan_matches_reference none "1. foo\n2. bar" "goal").1 (by decide)]
    decide
  · rw [(c4_amended_plan_matches_reference (some (PyJson.arr [PyJson.str "a", PyJson.str "b"]))
      "x" "goal").1 (by decide)]
    decide

/-- C5: plan extraction is a total function (the embedding is a plain
`def`, so it never raises) that always returns a non-empty sequence; and
whenever the extraction chain yields no questions — the JSON parse gave an
array of zero strings, or neither the parse nor the newline-split fallback
produced any — the result is exactly `[fallback_goal]`. -/
theorem c5_total_nonempty_fallback (parsed : Option PyJson)
    (raw_text fallback_goal : String) :
    extractPlan parsed raw_text fallback_goal ≠ [] ∧
    ((parsed.bind asListOfStrings = some [] ∨
        (parsed.bind asListOfStrings = none ∧ fallbackSplit raw_text = [])) →
      extractPlan parsed raw_text fallback_goal = [fallback_goal]) := by
  constructor
  · unfold extractPlan
    cases parsed with
    | none =>
      by_cases hf : fallbackSplit raw_text = [] <;> simp [hf]
    | some v =>
      cases hv : asListOfStrings v with
      | none => by_cases hf : fallbackSplit raw_text = [] <;> simp [hv, hf]
      | some qs => by_cases hqs : qs = ([] : List String) <;> simp [hv, hqs]
  · intro h
    unfold extractPlan
    cases parsed with
    | none =>
      rcases h with h | ⟨_, hf⟩
      · exact absurd h (by simp)
      · simp [hf]
    | some v =>
      rcases h with h | ⟨hn, hf⟩
      · have h' : asListOfStrings v = some [] := h
        simp [h']
      · have hn' : asListOfStrings v = none := hn
        simp [hn', hf]

/-- Witness for C5: whitespace-only planner text with a failed parse falls
back to the goal; an empty JSON array falls back to the goal. -/
theorem c5_witness :
    (extractPlan none "  \n \t " "the goal" ≠ [] ∧
      extractPlan none "  \n \t " "the goal" = ["the goal"]) ∧
    extractPlan (some (PyJson.arr [])) "[]" "the goal" = ["the goal"] := by
  refine ⟨⟨(c5_total_nonempty_fallback none "  \n \t " "the goal").1, ?_⟩, ?_⟩
  · exact (c5_total_nonempty_fallback none "  \n \t " "the goal").2
      (Or.inr ⟨rfl, by decide⟩)
  · exact (c5_total_nonempty_fallback (some (PyJson.arr [])) "[]" "the goal").2
      (Or.inl (by decide))

/-! ### Helper lemmas about the orchestrator -/

/-- When every researcher call answers normally, the loop issues exactly
one call per question, in plan order, and collects the (question, finding)
notes in that order. -/
theorem researchLoop_all_ok (oracle : Nat → CallRes) (qs : List String) :
    ∀ (i : Nat) (fn : Nat → String),
      (∀ j, j < qs.length → oracle (i + j) = CallRes.ok (fn j)) →
      researchLoop oracle qs i =
        (List.zipWith (fun q fd => ((⟨RESEARCHER_PROMPT, q, true⟩ : CallSpec), CallRes.ok fd))
            qs ((List.range qs.length).map fn),
         Except.ok (qs.zip ((List.range qs.length).map fn))) := by
  induction qs with
  | nil =>
    intro i fn _
    simp [researchLoop]
  | cons q qs ih =>
    intro i fn h
    have h0 : oracle i = CallRes.ok (fn 0) := by simpa using h 0 (by simp)
    have hih := ih (i + 1) (fun j => fn (j + 1)) (fun j hj => by
      have hx := h (j + 1) (by simpa using Nat.succ_lt_succ hj)
      rw [show i + (j + 1) = i + 1 + j from by omega] at hx
      exact hx)
    simp only [researchLoop, h0, hih]
    rw [List.length_cons, List.range_succ_eq_map, List.map_cons, List.map_map]
    have hcomp : (fn ∘ Nat.succ) = fun j => fn (j + 1) := by
      funext j
      simp [Function.comp, Nat.succ_eq_add_one]
    rw [hcomp]
    simp [Except.map]

/-- When the planner, every researcher call and the writer call all answer
normally, the run's full trace: planner call, one researcher call per plan
question in order, then the writer call whose prompt serializes the
ordered notes, with the writer's text as the final report. -/
theorem runAgentSystem_all_ok (oracle : Nat → CallRes) (loadsOracle : String → Option PyJson)
    (user_goal plan_text final_report : String) (fn : Nat → String) (plan : List String)
    (hplan : plan = extractPlan (loadsOracle plan_text) plan_text user_goal)
    (h0 : oracle 0 = CallRes.ok plan_text)
    (hr : ∀ j, j < plan.length → oracle (1 + j) = CallRes.ok (fn j))
    (hw : oracle (plan.length + 1) = CallRes.ok final_report) :
    runAgentSystem oracle loadsOracle user_goal =
      ⟨(⟨MANAGER_PROMPT, user_goal, false⟩, CallRes.ok plan_text) ::
        (List.zipWith (fun q fd => ((⟨RESEARCHER_PROMPT, q, true⟩ : CallSpec), CallRes.ok fd))
            plan ((List.range plan.length).map fn) ++
          [(⟨WRITER_PROMPT, writerTaskPrompt (plan.zip ((List.range plan.length).map fn)),
              false⟩,
            CallRes.ok final_report)]),
       RunOutcome.report final_report⟩ := by
  have hloop := researchLoop_all_ok oracle plan 1 fn hr
  simp only [runAgentSystem, h0, ← hplan, hloop, hw]
  simp

/-! ### Claims about the orchestrator -/

/-- C7: for every plan of N questions from the planning stage, the run
issues exactly N researcher calls, one per question, in plan order (the
trace lists them in execution order, and the sequential recursion of the
embedding completes each call before the next is issued), followed by one
writer call whose prompt serializes all N questions paired with their
findings in that same order; the emitted final report is exactly the
writer's returned text. -/
theorem c7_pipeline_trace (oracle : Nat → CallRes) (loadsOracle : String → Option PyJson)
    (user_goal plan_text final_report : String) (fn : Nat → String) (plan : List String)
    (hplan : plan = extractPlan (loadsOracle plan_text) plan_text user_goal)
    (h0 : oracle 0 = CallRes.ok plan_text)
    (hr : ∀ j, j < plan.length → oracle (1 + j) = CallRes.ok (fn j))
    (hw : oracle (plan.length + 1) = CallRes.ok final_report) :
    runAgentSystem oracle loadsOracle user_goal =
      ⟨(⟨MANAGER_PROMPT, user_goal, false⟩, CallRes.ok plan_text) ::
        (List.zipWith (fun q fd => ((⟨RESEARCHER_PROMPT, q, true⟩ : CallSpec), CallRes.ok fd))
            plan ((List.range plan.length).map fn) ++
          [(⟨WRITER_PROMPT, writerTaskPrompt (plan.zip ((List.range plan.length).map fn)),
              false⟩,
            CallRes.ok final_report)]),
       RunOutcome.report final_report⟩ :=
  runAgentSystem_all_ok oracle loadsOracle user_goal plan_text final_report fn plan
    hplan h0 hr hw

set_option maxRecDepth 8192 in
/-- Witness for C7: a two-question plan yields exactly the planner call,
two researcher calls in order, and a writer call whose prompt serializes
both notes in order; the outcome is the writer's text. -/
theorem c7_witness :
    runAgentSystem
      (fun i => if i = 0 then CallRes.ok "ptext" else if i = 1 then CallRes.ok "f1"
        else if i = 2 then CallRes.ok "f2" else CallRes.ok "rep")
      (fun _ => some (PyJson.arr [PyJson.str "q1", PyJson.str "q2"])) "goal" =
      ⟨[(⟨MANAGER_PROMPT, "goal", false⟩, CallRes.ok "ptext"),
        (⟨RESEARCHER_PROMPT, "q1", true⟩, CallRes.ok "f1"),
        (⟨RESEARCHER_PROMPT, "q2", true⟩, CallRes.ok "f2"),
        (⟨WRITER_PROMPT, writerTaskPrompt [("q1", "f1"), ("q2", "f2")], false⟩,
          CallRes.ok "rep")],
       RunOutcome.report "rep"⟩ := by
  have h := c7_pipeline_trace
    (fun i => if i = 0 then CallRes.ok "ptext" else if i = 1 then CallRes.ok "f1"
      else if i = 2 then CallRes.ok "f2" else CallRes.ok "rep")
    (fun _ => some (PyJson.arr [PyJson.str "q1", PyJson.str "q2"]))
    "goal" "ptext" "rep" (fun j => if j = 0 then "f1" else "f2") ["q1", "q2"]
    (by decide) rfl (by decide) rfl
  rw [h]
  decide

/-- C8: when the researcher call for question number `jq` of the plan
fails with a non-transient exception on its attempt, `call_gemini` returns
the in-band payload, so the finding recorded for that question is
`"[Error: <message>]"` and the pipeline is not aborted: every other
question is still researched in order, the writer stage still runs on the
ordered notes, and the run still emits the writer's report. -/
theorem c8_nontransient_finding_continues (evs : Nat → List AttemptEvent) (delay : Nat)
    (loadsOracle : String → Option PyJson)
    (user_goal plan_text final_report : String) (fn : Nat → String) (plan : List String)
    (jq : Nat) (ev0 : AttemptEvent) (rest0 : List AttemptEvent) (e : Exc)
    (hplan : plan = extractPlan (loadsOracle plan_text) plan_text user_goal)
    (h0 : oracleOfEvents evs delay 0 = CallRes.ok plan_text)
    (hj : jq < plan.length)
    (hevj : evs (1 + jq) = ev0 :: rest0)
    (hexc : attemptTry ev0 = Except.error e)
    (hnt : e.isTransient = false)
    (hr : ∀ k, k < plan.length → k ≠ jq →
      oracleOfEvents evs delay (1 + k) = CallRes.ok (fn k))
    (hw : oracleOfEvents evs delay (plan.length + 1) = CallRes.ok final_report) :
    runAgentSystem (oracleOfEvents evs delay) loadsOracle user_goal =
      ⟨(⟨MANAGER_PROMPT, user_goal, false⟩, CallRes.ok plan_text) ::
        (List.zipWith (fun q fd => ((⟨RESEARCHER_PROMPT, q, true⟩ : CallSpec), CallRes.ok fd))
            plan ((List.range plan.length).map
              (fun k => if k = jq then "[Error: " ++ e.msg ++ "]" else fn k)) ++
          [(⟨WRITER_PROMPT,
              writerTaskPrompt (plan.zip ((List.range plan.length).map
                (fun k => if k = jq then "[Error: " ++ e.msg ++ "]" else fn k))),
              false⟩,
            CallRes.ok final_report)]),
       RunOutcome.report final_report⟩ := by
  have hjq : oracleOfEvents evs delay (1 + jq) = CallRes.ok ("[Error: " ++ e.msg ++ "]") := by
    unfold oracleOfEvents
    rw [hevj, callGemini_nontransient_first ev0 rest0 delay e hexc hnt]
    rfl
  have hr2 : ∀ k, k < plan.length →
      oracleOfEvents evs delay (1 + k) =
        CallRes.ok (if k = jq then "[Error: " ++ e.msg ++ "]" else fn k) := by
    intro k hk
    by_cases hkj : k = jq
    · subst hkj
      rw [if_pos rfl]
      exact hjq
    · rw [if_neg hkj]
      exact hr k hk hkj
  exact runAgentSystem_all_ok (oracleOfEvents evs delay) loadsOracle user_goal plan_text
    final_report (fun k => if k = jq then "[Error: " ++ e.msg ++ "]" else fn k) plan
    hplan h0 hr2 hw

set_option maxRecDepth 8192 in
/-- Witness for C8: with a two-question plan, the second researcher call
raising a non-transient exception records the in-band error as that
question's finding, the writer still runs, and the report is emitted. -/
theorem c8_witness :
    runAgentSystem
      (oracleOfEvents (fun i =>
        if i = 0 then [AttemptEvent.responds ⟨[⟨⟨[⟨"ptext"⟩]⟩, some "STOP", ""⟩]⟩]
        else if i = 1 then [AttemptEvent.responds ⟨[⟨⟨[⟨"f1"⟩]⟩, some "STOP", ""⟩]⟩]
        else if i = 2 then [AttemptEvent.raisesEvt ⟨ExcKind.otherKind, "boom"⟩]
        else [AttemptEvent.responds ⟨[⟨⟨[⟨"rep"⟩]⟩, some "STOP", ""⟩]⟩]) 5)
      (fun _ => some (PyJson.arr [PyJson.str "q1", PyJson.str "q2"])) "goal" =
      ⟨[(⟨MANAGER_PROMPT, "goal", false⟩, CallRes.ok "ptext"),
        (⟨RESEARCHER_PROMPT, "q1", true⟩, CallRes.ok "f1"),
        (⟨RESEARCHER_PROMPT, "q2", true⟩, CallRes.ok "[Error: boom]"),
        (⟨WRITER_PROMPT, writerTaskPrompt [("q1", "f1"), ("q2", "[Error: boom]")], false⟩,
          CallRes.ok "rep")],
       RunOutcome.report "rep"⟩ := by
  have h := c8_nontransient_finding_continues
    (fun i =>
      if i = 0 then [AttemptEvent.responds ⟨[⟨⟨[⟨"ptext"⟩]⟩, some "STOP", ""⟩]⟩]
      else if i = 1 then [AttemptEvent.responds ⟨[⟨⟨[⟨"f1"⟩]⟩, some "STOP", ""⟩]⟩]
      else if i = 2 then [AttemptEvent.raisesEvt ⟨ExcKind.otherKind, "boom"⟩]
      else [AttemptEvent.responds ⟨[⟨⟨[⟨"rep"⟩]⟩, some "STOP", ""⟩]⟩]) 5
    (fun _ => some (PyJson.arr [PyJson.str "q1", PyJson.str "q2"]))
    "goal" "ptext" "rep" (fun _ => "f1") ["q1", "q2"] 1
    (AttemptEvent.raisesEvt ⟨ExcKind.otherKind, "boom"⟩) [] ⟨ExcKind.otherKind, "boom"⟩
    (by decide) (by decide) (by decide) rfl rfl rfl (by decide) (by decide)
  rw [h]
  decide

end MultiAgentTerminal
